import Mathlib

/-!
Shallow embedding of the streaming batch pipeline of the guia-ne repository.

The embedded code comes from:
* `src/core/lattes_zip_processor.py` — `StreamingZipProcessor`
  (`stream_xml_files`, `extract_xml_files_streaming`);
* `src/core/oci_client.py` — `StreamingOCIClient.upload_from_bytes`;
* `src/core/batch_processor.py` — `BatchProcessor`
  (`process_single_file_streaming`, `process_batch_streaming`,
  `get_batch_summary`);
* `src/core/stream_processor.py` — `StreamingBatchProcessor`
  (`process_single_file_streaming`, `process_batch_streaming`,
  `get_streaming_batch_summary`).

Modelling decisions:
* Byte strings are `List Nat`; Python's `not content` test on bytes is
  emptiness of the list.
* Python floats (timestamps, elapsed seconds) are modelled as exact
  rationals `ℚ`.
* The remote store (`oci.put_object`) is an oracle
  `putObject : String → PutObjectBehavior` saying, per object name, whether
  the call succeeds, raises `ServiceError`, or raises another exception.
* The archive on disk is a `World := Except String (List XMLFileStream)`:
  either the streamer raises before yielding anything (`FileNotFoundError`
  at the existence check, or `ZipProcessingError` when the container cannot
  be opened), carrying the exception's message, or it yields the finite list
  of payload (XML, non-directory) members in archive-listing order.  This is
  exactly the behaviour of `StreamingZipProcessor.stream_xml_files`:
  per-member read failures are caught inside the generator and skipped
  (already absent from the member list), so the generator never raises after
  its first yield.
* The two `time.time()` calls of each `process_single_file_streaming`
  execution are the parameters `tStart` and `tEnd` (entry and exit
  timestamps).
* `upload_from_bytes` additionally returns a `Bool` recording whether the
  remote call (`put_object`) was performed, making the I/O effect explicit.
-/

namespace GuiaNE

/-- `XMLFileStream` dataclass of `lattes_zip_processor.py`: one archive
member extracted in memory. -/
structure XMLFileStream where
  filename : String
  content : List Nat
  size : Nat
deriving Repr, DecidableEq

/-- `StreamExtractionResult` dataclass of `lattes_zip_processor.py`. -/
structure StreamExtractionResult where
  zip_filename : String
  xml_files_found : Nat
  success : Bool
  error_message : Option String
deriving Repr, DecidableEq

/-- `StreamUploadResult` dataclass of `oci_client.py`. -/
structure StreamUploadResult where
  object_name : String
  success : Bool
  size_bytes : Nat
  error_message : Option String
deriving Repr, DecidableEq

/-- Behaviour of one `put_object` remote call: succeed, raise
`oci.exceptions.ServiceError` with message `msg`, or raise some other
exception with message `msg`. -/
inductive PutObjectBehavior where
  | ok
  | serviceError (msg : String)
  | otherError (msg : String)
deriving Repr, DecidableEq

/-- `StreamingOCIClient.upload_from_bytes` (`oci_client.py`, lines 67-115).
Returns the `StreamUploadResult` the Python function returns, paired with a
`Bool` that records whether the remote `put_object` call was made.  The
function is total: every failure mode of the body is caught and represented
in the returned result, mirroring the `try/except` structure. -/
def upload_from_bytes (putObject : String → PutObjectBehavior)
    (content : List Nat) (object_name : String) :
    StreamUploadResult × Bool :=
  if content = [] then
    ({ object_name := object_name, success := false, size_bytes := 0,
       error_message := some "Conteúdo vazio" }, false)
  else
    match putObject object_name with
    | .ok =>
        ({ object_name := object_name, success := true,
           size_bytes := content.length, error_message := none }, true)
    | .serviceError m =>
        ({ object_name := object_name, success := false, size_bytes := 0,
           error_message := some ("Erro OCI: " ++ m) }, true)
    | .otherError m =>
        ({ object_name := object_name, success := false, size_bytes := 0,
           error_message := some m }, true)

/-- Python's `zip_filename.replace(".zip", "")` on the character list:
left-to-right removal of every non-overlapping occurrence of `.zip`. -/
def stripZipAll : List Char → List Char
  | '.' :: 'z' :: 'i' :: 'p' :: rest => stripZipAll rest
  | c :: rest => c :: stripZipAll rest
  | [] => []

/-- `zip_base_name = zip_filename.replace(".zip", "")` as computed by both
pipeline variants (`batch_processor.py` line 81, `stream_processor.py`
line 91). -/
def zipBaseName (zip_filename : String) : String :=
  ⟨stripZipAll zip_filename.data⟩

/-- Destination object name as computed by the code:
`f"{object_prefix}/{zip_base_name}/{xml_file.filename}"` with
`zip_base_name = zip_filename.replace(".zip", "")`. -/
def destObjectName (pfx zip_filename member : String) : String :=
  pfx ++ "/" ++ zipBaseName zip_filename ++ "/" ++ member

/-- The spec's naming formula, for comparison with `destObjectName`:
`{prefix}/{archiveBaseNameWithoutExtension}/{memberFileName}`, where the
base name has its `.zip` extension (the final four characters, when the
name ends in `.zip`) removed. -/
def destObjectNameSpec (pfx zip_filename member : String) : String :=
  pfx ++ "/" ++
    (if 4 ≤ zip_filename.data.length ∧
        zip_filename.data.drop (zip_filename.data.length - 4) =
          ['.', 'z', 'i', 'p']
     then ⟨zip_filename.data.take (zip_filename.data.length - 4)⟩
     else zip_filename) ++ "/" ++ member

/-- The state of the archive as seen by the streamer: an exception (with its
message) raised before any member is yielded, or the finite list of payload
members. -/
abbrev World := Except String (List XMLFileStream)

/-- `StreamingZipProcessor.extract_xml_files_streaming`
(`lattes_zip_processor.py`, lines 109-150): counts payload members without
reading content; any exception is caught and represented in the returned
result. -/
def extract_xml_files_streaming (world : World) (zip_filename : String) :
    StreamExtractionResult :=
  match world with
  | .error e =>
      { zip_filename := zip_filename, xml_files_found := 0, success := false,
        error_message := some e }
  | .ok members =>
      { zip_filename := zip_filename, xml_files_found := members.length,
        success := decide (0 < members.length),
        error_message :=
          if 0 < members.length then none
          else some ("Nenhum arquivo XML encontrado em " ++ zip_filename) }

/-- Python's `str(x)` for `x : Option String` as used in f-string
interpolation of an `error_message` that may be `None`. -/
def pyStr (o : Option String) : String := o.getD "None"

/-!
Model of Python `float` (IEEE-754 binary64) arithmetic, needed because the
summaries sum `processing_time_seconds` with Python float additions, whose
results depend on rounding.  A finite binary64 value is a dyadic rational
`m · 2^e`; addition computes the exact dyadic sum and rounds it to 53
significant bits, ties to even.  The exponent range is modelled as
unbounded: overflow and subnormal thresholds (`|x| ≥ ~1.8e308`,
`|x| < ~2.2e-308`) are ignored, which is exact for the magnitudes of
elapsed-seconds values.
-/

/-- Number of bits of `n` (`0` for `0`), by fuelled halving. -/
def bitLenFuel : Nat → Nat → Nat
  | 0, _ => 0
  | fuel+1, n => if n = 0 then 0 else bitLenFuel fuel (n / 2) + 1

/-- Number of bits of `n`: the unique `b` with `2^(b-1) ≤ n < 2^b` for
`n > 0`. -/
def bitLen (n : Nat) : Nat := bitLenFuel n n

/-- A dyadic rational `m · 2^e` — the value form of every finite binary64
number. -/
abbrev Dyadic := ℤ × ℤ

/-- Exact sum of two dyadic rationals (align exponents, add mantissas). -/
def dyAdd (a b : Dyadic) : Dyadic :=
  if a.2 ≤ b.2 then (a.1 + b.1 * 2 ^ (b.2 - a.2).toNat, a.2)
  else (b.1 + a.1 * 2 ^ (a.2 - b.2).toNat, b.2)

/-- IEEE-754 binary64 rounding of a dyadic rational: keep at most 53
significant bits, round to nearest, ties to even (on the magnitude, which
is symmetric).  Exponent range unbounded (see the section comment). -/
def fl64 (a : Dyadic) : Dyadic :=
  if a.1 = 0 then (0, 0)
  else
    let n := a.1.natAbs
    let b := bitLen n
    if b ≤ 53 then a
    else
      let s := b - 53
      let q := n / 2 ^ s
      let r := n % 2 ^ s
      let m :=
        if 2 * r < 2 ^ s then q
        else if 2 * r = 2 ^ s then (if q % 2 = 0 then q else q + 1)
        else q + 1
      ((if a.1 < 0 then -(m : ℤ) else (m : ℤ)), a.2 + s)

/-- The dyadic form of a rational whose denominator is a power of two
(every finite binary64 value is of this form; for other denominators the
result is not meaningful). -/
def dyOfRat (q : ℚ) : Dyadic := (q.num, -((bitLen q.den : ℤ) - 1))

/-- Python's `sum(...)` over binary64 values (initial value `0`, one
rounded addition per element), on dyadic inputs. -/
def pyFloatSum (l : List ℚ) : Dyadic :=
  (l.map dyOfRat).foldl (fun acc x => fl64 (dyAdd acc x)) (0, 0)

/-- The rational value of a dyadic number. -/
def dyVal (d : Dyadic) : ℚ := (d.1 : ℚ) * (2 : ℚ) ^ d.2

/-- The binary64 value of the Python literal `0.1`:
`3602879701896397 · 2⁻⁵⁵`. -/
def pyFloat01 : ℚ := ⟨3602879701896397, 36028797018963968, by decide, by decide⟩

/-- The binary64 value of the Python literal `0.2`:
`3602879701896397 · 2⁻⁵⁴`. -/
def pyFloat02 : ℚ := ⟨3602879701896397, 18014398509481984, by decide, by decide⟩

/-- The binary64 value of the Python literal `0.3`:
`5404319552844595 · 2⁻⁵⁴`. -/
def pyFloat03 : ℚ := ⟨5404319552844595, 18014398509481984, by decide, by decide⟩

end GuiaNE

namespace GuiaNE.BatchProcessor

open GuiaNE

/-- `BatchResult` dataclass of `batch_processor.py`. -/
structure BatchResult where
  zip_filename : String
  status : String
  xml_files_processed : Nat
  uploaded_objects : List String
  processing_time_seconds : ℚ
  error_message : Option String
deriving Repr, DecidableEq

/-- The upload loop of `BatchProcessor.process_single_file_streaming`
(lines 85-97): fold over the streamed members accumulating
`uploaded_objects` (names of successful uploads, in order) and
`upload_failures` (formatted `f"{filename}: {error_message}"` strings, in
order). -/
def uploadLoop (putObject : String → PutObjectBehavior)
    (pfx base : String) :
    List XMLFileStream → List String × List String
  | [] => ([], [])
  | x :: rest =>
      let object_name := pfx ++ "/" ++ base ++ "/" ++ x.filename
      let r := (upload_from_bytes putObject x.content object_name).1
      let acc := uploadLoop putObject pfx base rest
      if r.success then (object_name :: acc.1, acc.2)
      else (acc.1, (x.filename ++ ": " ++ pyStr r.error_message) :: acc.2)

/-- `BatchProcessor.process_single_file_streaming` (`batch_processor.py`,
lines 54-125).  `tStart` and `tEnd` are the two `time.time()` readings
(entry, and exit on whichever path is taken).  The `.error` branch of
`world` is the `except Exception` handler: the result keeps its initial
`status="ERRO"`, zero counters, and records the exception's message and the
elapsed time. -/
def process_single_file_streaming (putObject : String → PutObjectBehavior)
    (world : World) (zip_filename pfx : String) (tStart tEnd : ℚ) :
    BatchResult :=
  match world with
  | .error e =>
      { zip_filename := zip_filename, status := "ERRO",
        xml_files_processed := 0, uploaded_objects := [],
        processing_time_seconds := tEnd - tStart, error_message := some e }
  | .ok members =>
      let base := zipBaseName zip_filename
      let acc := uploadLoop putObject pfx base members
      if 0 < acc.1.length then
        { zip_filename := zip_filename,
          status := if acc.2 = [] then "SUCESSO" else "SUCESSO_PARCIAL",
          xml_files_processed := acc.1.length,
          uploaded_objects := acc.1,
          processing_time_seconds := tEnd - tStart,
          error_message :=
            if acc.2 = [] then none
            else some ("Falhas em uploads: " ++
              String.intercalate "; " acc.2) }
      else
        { zip_filename := zip_filename, status := "ERRO",
          xml_files_processed := 0, uploaded_objects := [],
          processing_time_seconds := tEnd - tStart,
          error_message := some "Nenhum arquivo foi processado com sucesso" }

/-- `BatchProcessor.process_batch_streaming` (`batch_processor.py`,
lines 127-198).  The `ThreadPoolExecutor` submits one
`process_single_file_streaming` unit per entry of `zip_files`;
`as_completed` hands futures back in completion order, modelled by the
parameter `order` — the list of indices into `zip_files` in the order the
corresponding futures complete.  `worldOf` and `timesOf` give each
archive's on-disk state and the two clock readings of its unit of work.
The per-future `except` branch is dead code in the model because
`process_single_file_streaming` is total, matching the source's own
comment that it never propagates. -/
def process_batch_streaming (putObject : String → PutObjectBehavior)
    (worldOf : String → World) (timesOf : String → ℚ × ℚ)
    (zip_files : List String) (pfx : String) (order : List Nat) :
    List BatchResult :=
  order.filterMap (fun i =>
    (zip_files.get? i).map (fun z =>
      process_single_file_streaming putObject (worldOf z) z pfx
        (timesOf z).1 (timesOf z).2))

/-- `get_batch_summary` result: the Python dict has only the key
`total_files` on empty input and all keys otherwise, modelled by `Option`
fields that are `none` exactly when absent. -/
structure BatchSummary where
  total_files : Nat
  successful : Option Nat
  failed : Option Nat
  total_xml_files_processed : Option Nat
  total_processing_time_seconds : Option ℚ
  average_processing_time_per_file : Option ℚ
  success_rate_percent : Option ℚ
deriving Repr, DecidableEq

/-- Membership test `r.status in ["SUCESSO", "SUCESSO_PARCIAL"]`. -/
def isCounted (r : BatchResult) : Bool :=
  r.status == "SUCESSO" || r.status == "SUCESSO_PARCIAL"

/-- `BatchProcessor.get_batch_summary` (`batch_processor.py`,
lines 212-246). -/
def get_batch_summary (results : List BatchResult) : BatchSummary :=
  if results = [] then
    { total_files := 0, successful := none, failed := none,
      total_xml_files_processed := none,
      total_processing_time_seconds := none,
      average_processing_time_per_file := none,
      success_rate_percent := none }
  else
    let successful := results.filter isCounted
    let failed := results.filter (fun r => r.status == "ERRO")
    let total_xml_files := (results.map (·.xml_files_processed)).sum
    let total_processing_time :=
      (results.map (·.processing_time_seconds)).sum
    { total_files := results.length,
      successful := some successful.length,
      failed := some failed.length,
      total_xml_files_processed := some total_xml_files,
      total_processing_time_seconds := some total_processing_time,
      average_processing_time_per_file :=
        some (if results.length ≠ 0 then
          total_processing_time / results.length else 0),
      success_rate_percent :=
        some (if results.length ≠ 0 then
          (successful.length / (results.length : ℚ)) * 100 else 0) }

end GuiaNE.BatchProcessor

namespace GuiaNE.StreamingBatchProcessor

open GuiaNE

/-- `StreamingBatchResult` dataclass of `stream_processor.py`. -/
structure StreamingBatchResult where
  zip_filename : String
  status : String
  xml_files_processed : Nat
  uploaded_objects : List String
  total_bytes_uploaded : Nat
  processing_time_seconds : ℚ
  error_message : Option String
deriving Repr, DecidableEq

/-- The upload loop of `StreamingBatchProcessor.process_single_file_streaming`
(lines 94-114): accumulates the full list of `StreamUploadResult`s
(`upload_results`), the successful object names (`result.uploaded_objects`),
and the total bytes uploaded, in member order. -/
def uploadLoop (putObject : String → PutObjectBehavior)
    (pfx base : String) :
    List XMLFileStream → List StreamUploadResult × List String × Nat
  | [] => ([], [], 0)
  | x :: rest =>
      let object_name := pfx ++ "/" ++ base ++ "/" ++ x.filename
      let r := (upload_from_bytes putObject x.content object_name).1
      let acc := uploadLoop putObject pfx base rest
      ( r :: acc.1,
        if r.success then (object_name :: acc.2.1, r.size_bytes + acc.2.2)
        else acc.2 )

/-- Python's `repr` of a list of strings, as produced by
`f"{failed_uploads[:3]}"`. -/
def pyListRepr (l : List String) : String :=
  let q := String.singleton (Char.ofNat 39)
  "[" ++ String.intercalate ", " (l.map (fun s => q ++ s ++ q)) ++ "]"

/-- `StreamingBatchProcessor.process_single_file_streaming`
(`stream_processor.py`, lines 55-151).  `tStart` and `tEnd` are the
`time.time()` readings at entry and exit.  Control flow reproduced from the
source: when the pre-check `extract_xml_files_streaming` does not report
success the function returns early (line 88) — note that this early return
happens before `processing_time_seconds` is stamped, leaving the
dataclass's initial `0.0`.  Otherwise the member stream is consumed (in the
model, pre-check success forces `world = .ok members`, so the
`except`-handler branch for a stream raised after a successful pre-check is
unreachable, as in the single-world semantics of the source), the status is
derived from the counts of attempted and successful uploads, and the
elapsed time is stamped. -/
def process_single_file_streaming (putObject : String → PutObjectBehavior)
    (world : World) (zip_filename pfx : String) (tStart tEnd : ℚ) :
    StreamingBatchResult :=
  let extraction_info := extract_xml_files_streaming world zip_filename
  if extraction_info.success = false then
    { zip_filename := zip_filename, status := "ERRO",
      xml_files_processed := 0, uploaded_objects := [],
      total_bytes_uploaded := 0, processing_time_seconds := 0,
      error_message := extraction_info.error_message }
  else
    match world with
    | .error e =>
        { zip_filename := zip_filename, status := "ERRO",
          xml_files_processed := 0, uploaded_objects := [],
          total_bytes_uploaded := 0,
          processing_time_seconds := tEnd - tStart,
          error_message := some e }
    | .ok members =>
        let base := zipBaseName zip_filename
        let acc := uploadLoop putObject pfx base members
        let upload_results := acc.1
        let total_uploads := upload_results.length
        let successful_uploads :=
          (upload_results.filter (·.success)).length
        if successful_uploads = total_uploads ∧ 0 < successful_uploads then
          { zip_filename := zip_filename, status := "SUCESSO",
            xml_files_processed := acc.2.1.length,
            uploaded_objects := acc.2.1,
            total_bytes_uploaded := acc.2.2,
            processing_time_seconds := tEnd - tStart,
            error_message := none }
        else if 0 < successful_uploads then
          let failed_uploads :=
            (upload_results.filter (fun r => !r.success)).map
              (·.object_name)
          { zip_filename := zip_filename, status := "SUCESSO_PARCIAL",
            xml_files_processed := acc.2.1.length,
            uploaded_objects := acc.2.1,
            total_bytes_uploaded := acc.2.2,
            processing_time_seconds := tEnd - tStart,
            error_message := some ("Falhas em " ++
              toString failed_uploads.length ++ " uploads: " ++
              pyListRepr (failed_uploads.take 3)) }
        else
          { zip_filename := zip_filename, status := "ERRO",
            xml_files_processed := acc.2.1.length,
            uploaded_objects := acc.2.1,
            total_bytes_uploaded := acc.2.2,
            processing_time_seconds := tEnd - tStart,
            error_message := some "Nenhum arquivo foi enviado com sucesso" }

/-- `StreamingBatchProcessor.process_batch_streaming`
(`stream_processor.py`, lines 153-212): strictly sequential — one
`process_single_file_streaming` per entry of `zip_files`, results appended
in submission order.  The per-iteration `except` branch is dead code in the
model because `process_single_file_streaming` is total. -/
def process_batch_streaming (putObject : String → PutObjectBehavior)
    (worldOf : String → World) (timesOf : String → ℚ × ℚ)
    (zip_files : List String) (pfx : String) :
    List StreamingBatchResult :=
  zip_files.map (fun z =>
    process_single_file_streaming putObject (worldOf z) z pfx
      (timesOf z).1 (timesOf z).2)

/-- Result dict of `get_streaming_batch_summary`: only `total_files` on
empty input, all keys otherwise. -/
structure StreamingBatchSummary where
  total_files : Nat
  successful : Option Nat
  failed : Option Nat
  total_xml_files_processed : Option Nat
  total_bytes_uploaded : Option Nat
  total_bytes_uploaded_mb : Option ℚ
  total_processing_time_seconds : Option ℚ
  average_processing_time_per_file : Option ℚ
  success_rate_percent : Option ℚ
  average_bytes_per_file : Option ℚ
deriving Repr, DecidableEq

/-- Membership test `r.status in ["SUCESSO", "SUCESSO_PARCIAL"]`. -/
def isCounted (r : StreamingBatchResult) : Bool :=
  r.status == "SUCESSO" || r.status == "SUCESSO_PARCIAL"

/-- Python's `round(q, 2)`: round `q * 100` half-to-even, then divide by
100 (as a value on exact rationals). -/
def pyRound2 (q : ℚ) : ℚ :=
  let m := q * 100
  let z : ℤ :=
    if m - ⌊m⌋ = 1 / 2 then (if ⌊m⌋ % 2 = 0 then ⌊m⌋ else ⌊m⌋ + 1)
    else round m
  (z : ℚ) / 100

/-- `StreamingBatchProcessor.get_streaming_batch_summary`
(`stream_processor.py`, lines 227-263). -/
def get_streaming_batch_summary (results : List StreamingBatchResult) :
    StreamingBatchSummary :=
  if results = [] then
    { total_files := 0, successful := none, failed := none,
      total_xml_files_processed := none, total_bytes_uploaded := none,
      total_bytes_uploaded_mb := none,
      total_processing_time_seconds := none,
      average_processing_time_per_file := none,
      success_rate_percent := none, average_bytes_per_file := none }
  else
    let successful := results.filter isCounted
    let failed := results.filter (fun r => r.status == "ERRO")
    let total_xml_files := (results.map (·.xml_files_processed)).sum
    let total_bytes := (results.map (·.total_bytes_uploaded)).sum
    let total_processing_time :=
      (results.map (·.processing_time_seconds)).sum
    { total_files := results.length,
      successful := some successful.length,
      failed := some failed.length,
      total_xml_files_processed := some total_xml_files,
      total_bytes_uploaded := some total_bytes,
      total_bytes_uploaded_mb :=
        some (pyRound2 ((total_bytes : ℚ) / (1024 * 1024))),
      total_processing_time_seconds := some total_processing_time,
      average_processing_time_per_file :=
        some (total_processing_time / results.length),
      success_rate_percent :=
        some ((successful.length / (results.length : ℚ)) * 100),
      average_bytes_per_file :=
        some (if 0 < results.length then
          (total_bytes : ℚ) / results.length else 0) }

end GuiaNE.StreamingBatchProcessor

namespace GuiaNE

/-- The upload attempt a single member gives rise to inside either
`process_single_file_streaming` loop: `upload_from_bytes` on the member's
content at the destination name `{pfx}/{base}/{filename}`. -/
def memberUpload (putObject : String → PutObjectBehavior)
    (pfx base : String) (x : XMLFileStream) : StreamUploadResult :=
  (upload_from_bytes putObject x.content
    (pfx ++ "/" ++ base ++ "/" ++ x.filename)).1

/-- Whether the upload attempt for member `x` succeeds. -/
def memberOk (putObject : String → PutObjectBehavior)
    (pfx base : String) (x : XMLFileStream) : Bool :=
  (memberUpload putObject pfx base x).success

/-- Number of member uploads that succeed. -/
def succCount (putObject : String → PutObjectBehavior)
    (pfx base : String) (ms : List XMLFileStream) : Nat :=
  ms.countP (memberOk putObject pfx base)

/-- Number of member uploads that fail. -/
def failCount (putObject : String → PutObjectBehavior)
    (pfx base : String) (ms : List XMLFileStream) : Nat :=
  ms.countP (fun x => !memberOk putObject pfx base x)

/-- Successful member uploads of a whole `processOne` run: zero when the
streamer raises, else the count over the member list. -/
def worldSuccCount (putObject : String → PutObjectBehavior)
    (pfx zip_filename : String) (world : World) : Nat :=
  match world with
  | .error _ => 0
  | .ok ms => succCount putObject pfx (zipBaseName zip_filename) ms

/-- Failed member uploads of a whole `processOne` run: zero when the
streamer raises (no upload is attempted), else the count over the member
list. -/
def worldFailCount (putObject : String → PutObjectBehavior)
    (pfx zip_filename : String) (world : World) : Nat :=
  match world with
  | .error _ => 0
  | .ok ms => failCount putObject pfx (zipBaseName zip_filename) ms

/-- The `total_processing_time_seconds` aggregate of `get_batch_summary`
(`batch_processor.py` line 229:
`sum(r.processing_time_seconds for r in results)`) as the program actually
computes it: a Python float sum over the binary64 elapsed values, one
rounded addition per result. -/
def floatSumBatch (results : List BatchProcessor.BatchResult) : Dyadic :=
  pyFloatSum (results.map (·.processing_time_seconds))

/-- Three results whose elapsed times are the binary64 values of the
Python literals `0.1`, `0.2`, `0.3`. -/
def c9forward : List BatchProcessor.BatchResult :=
  [{ zip_filename := "a.zip", status := "SUCESSO", xml_files_processed := 1,
     uploaded_objects := ["x"], processing_time_seconds := pyFloat01,
     error_message := none },
   { zip_filename := "b.zip", status := "SUCESSO", xml_files_processed := 1,
     uploaded_objects := ["y"], processing_time_seconds := pyFloat02,
     error_message := none },
   { zip_filename := "c.zip", status := "SUCESSO", xml_files_processed := 1,
     uploaded_objects := ["z"], processing_time_seconds := pyFloat03,
     error_message := none }]

/-- The same three results in reversed order. -/
def c9reversed : List BatchProcessor.BatchResult :=
  [{ zip_filename := "c.zip", status := "SUCESSO", xml_files_processed := 1,
     uploaded_objects := ["z"], processing_time_seconds := pyFloat03,
     error_message := none },
   { zip_filename := "b.zip", status := "SUCESSO", xml_files_processed := 1,
     uploaded_objects := ["y"], processing_time_seconds := pyFloat02,
     error_message := none },
   { zip_filename := "a.zip", status := "SUCESSO", xml_files_processed := 1,
     uploaded_objects := ["x"], processing_time_seconds := pyFloat01,
     error_message := none }]

theorem succCount_add_failCount (putObject : String → PutObjectBehavior)
    (pfx base : String) (ms : List XMLFileStream) :
    succCount putObject pfx base ms + failCount putObject pfx base ms =
      ms.length := by
  unfold succCount failCount
  induction ms with
  | nil => rfl
  | cons x ms ih =>
      simp only [List.countP_cons, List.length_cons]
      cases h : memberOk putObject pfx base x <;> simp [h] <;> omega

end GuiaNE

namespace GuiaNE.BatchProcessor

open GuiaNE

theorem uploadLoop_fst (putObject : String → PutObjectBehavior)
    (pfx base : String) (ms : List XMLFileStream) :
    (uploadLoop putObject pfx base ms).1 =
      (ms.filter (memberOk putObject pfx base)).map
        (fun x => pfx ++ "/" ++ base ++ "/" ++ x.filename) := by
  induction ms with
  | nil => rfl
  | cons x ms ih =>
      simp only [uploadLoop, List.filter_cons]
      cases h : memberOk putObject pfx base x with
      | false =>
          have h' : (upload_from_bytes putObject x.content
              (pfx ++ "/" ++ base ++ "/" ++ x.filename)).1.success = false := h
          simp [h', ih]
      | true =>
          have h' : (upload_from_bytes putObject x.content
              (pfx ++ "/" ++ base ++ "/" ++ x.filename)).1.success = true := h
          simp [h', ih]

theorem uploadLoop_snd_length (putObject : String → PutObjectBehavior)
    (pfx base : String) (ms : List XMLFileStream) :
    (uploadLoop putObject pfx base ms).2.length =
      failCount putObject pfx base ms := by
  unfold failCount
  induction ms with
  | nil => rfl
  | cons x ms ih =>
      simp only [uploadLoop, List.countP_cons]
      cases h : memberOk putObject pfx base x with
      | false =>
          have h' : (upload_from_bytes putObject x.content
              (pfx ++ "/" ++ base ++ "/" ++ x.filename)).1.success = false := h
          simp [h', ih]
      | true =>
          have h' : (upload_from_bytes putObject x.content
              (pfx ++ "/" ++ base ++ "/" ++ x.filename)).1.success = true := h
          simp [h', ih]

theorem uploadLoop_fst_length (putObject : String → PutObjectBehavior)
    (pfx base : String) (ms : List XMLFileStream) :
    (uploadLoop putObject pfx base ms).1.length =
      succCount putObject pfx base ms := by
  rw [uploadLoop_fst, List.length_map, succCount,
    List.countP_eq_length_filter]

theorem status_eq (putObject : String → PutObjectBehavior)
    (world : World) (zip_filename pfx : String) (tStart tEnd : ℚ) :
    (process_single_file_streaming putObject world zip_filename pfx
        tStart tEnd).status =
      if 0 < worldSuccCount putObject pfx zip_filename world then
        (if worldFailCount putObject pfx zip_filename world = 0 then
          "SUCESSO" else "SUCESSO_PARCIAL")
      else "ERRO" := by
  cases world with
  | error e => rfl
  | ok ms =>
      simp only [process_single_file_streaming, worldSuccCount,
        worldFailCount]
      have h1 := uploadLoop_fst_length putObject pfx
        (zipBaseName zip_filename) ms
      have h2 := uploadLoop_snd_length putObject pfx
        (zipBaseName zip_filename) ms
      by_cases hs : 0 < succCount putObject pfx (zipBaseName zip_filename) ms
      · rw [if_pos (h1 ▸ hs), if_pos hs]
        dsimp only
        by_cases hf :
            failCount putObject pfx (zipBaseName zip_filename) ms = 0
        · rw [if_pos (List.length_eq_zero.mp (h2.trans hf)), if_pos hf]
        · rw [if_neg (fun hnil => hf (by rw [← h2, hnil]; rfl)), if_neg hf]
      · rw [if_neg (fun hc => hs (h1 ▸ hc)), if_neg hs]

theorem zip_filename_eq (putObject : String → PutObjectBehavior)
    (world : World) (zip_filename pfx : String) (tStart tEnd : ℚ) :
    (process_single_file_streaming putObject world zip_filename pfx
        tStart tEnd).zip_filename = zip_filename := by
  cases world with
  | error e => rfl
  | ok ms =>
      simp only [process_single_file_streaming]
      split <;> rfl

theorem time_eq (putObject : String → PutObjectBehavior)
    (world : World) (zip_filename pfx : String) (tStart tEnd : ℚ) :
    (process_single_file_streaming putObject world zip_filename pfx
        tStart tEnd).processing_time_seconds = tEnd - tStart := by
  cases world with
  | error e => rfl
  | ok ms =>
      simp only [process_single_file_streaming]
      split <;> rfl

theorem uploaded_objects_eq (putObject : String → PutObjectBehavior)
    (zip_filename pfx : String) (tStart tEnd : ℚ)
    (ms : List XMLFileStream) :
    (process_single_file_streaming putObject (.ok ms) zip_filename pfx
        tStart tEnd).uploaded_objects =
      (ms.filter (memberOk putObject pfx (zipBaseName zip_filename))).map
        (fun x => destObjectName pfx zip_filename x.filename) := by
  simp only [process_single_file_streaming]
  have h1 := uploadLoop_fst putObject pfx (zipBaseName zip_filename) ms
  by_cases hc : 0 < (uploadLoop putObject pfx
      (zipBaseName zip_filename) ms).1.length
  · rw [if_pos hc]
    dsimp only
    rw [h1]
    rfl
  · rw [if_neg hc]
    dsimp only
    have : (ms.filter
        (memberOk putObject pfx (zipBaseName zip_filename))).length = 0 := by
      rw [← List.countP_eq_length_filter]
      have h1 := uploadLoop_fst_length putObject pfx
        (zipBaseName zip_filename) ms
      simp only [succCount] at h1
      omega
    rw [List.length_eq_zero.mp this]
    rfl

theorem xml_count_eq (putObject : String → PutObjectBehavior)
    (world : World) (zip_filename pfx : String) (tStart tEnd : ℚ) :
    (process_single_file_streaming putObject world zip_filename pfx
        tStart tEnd).xml_files_processed =
      worldSuccCount putObject pfx zip_filename world := by
  cases world with
  | error e => rfl
  | ok ms =>
      simp only [process_single_file_streaming, worldSuccCount]
      have h1 := uploadLoop_fst_length putObject pfx
        (zipBaseName zip_filename) ms
      by_cases hc : 0 < (uploadLoop putObject pfx
          (zipBaseName zip_filename) ms).1.length
      · rw [if_pos hc]
        dsimp only
        exact h1
      · rw [if_neg hc]
        dsimp only
        simp only [succCount] at h1 ⊢
        omega

theorem uploaded_length_eq (putObject : String → PutObjectBehavior)
    (world : World) (zip_filename pfx : String) (tStart tEnd : ℚ) :
    (process_single_file_streaming putObject world zip_filename pfx
        tStart tEnd).uploaded_objects.length =
      worldSuccCount putObject pfx zip_filename world := by
  cases world with
  | error e => rfl
  | ok ms =>
      rw [uploaded_objects_eq, List.length_map, worldSuccCount, succCount,
        List.countP_eq_length_filter]

end GuiaNE.BatchProcessor

namespace GuiaNE.StreamingBatchProcessor

open GuiaNE

theorem uploadLoop_results (putObject : String → PutObjectBehavior)
    (pfx base : String) (ms : List XMLFileStream) :
    (uploadLoop putObject pfx base ms).1 =
      ms.map (memberUpload putObject pfx base) := by
  induction ms with
  | nil => rfl
  | cons x ms ih => simp [uploadLoop, ih, memberUpload]

theorem uploadLoop_names (putObject : String → PutObjectBehavior)
    (pfx base : String) (ms : List XMLFileStream) :
    (uploadLoop putObject pfx base ms).2.1 =
      (ms.filter (memberOk putObject pfx base)).map
        (fun x => pfx ++ "/" ++ base ++ "/" ++ x.filename) := by
  induction ms with
  | nil => rfl
  | cons x ms ih =>
      simp only [uploadLoop, List.filter_cons]
      cases h : memberOk putObject pfx base x with
      | false =>
          have h' : (upload_from_bytes putObject x.content
              (pfx ++ "/" ++ base ++ "/" ++ x.filename)).1.success = false := h
          simp [h', ih]
      | true =>
          have h' : (upload_from_bytes putObject x.content
              (pfx ++ "/" ++ base ++ "/" ++ x.filename)).1.success = true := h
          simp [h', ih]

theorem uploadLoop_succ_length (putObject : String → PutObjectBehavior)
    (pfx base : String) (ms : List XMLFileStream) :
    ((uploadLoop putObject pfx base ms).1.filter (·.success)).length =
      succCount putObject pfx base ms := by
  rw [uploadLoop_results, succCount, List.countP_eq_length_filter,
    List.filter_map, List.length_map]
  rfl

theorem uploadLoop_total_length (putObject : String → PutObjectBehavior)
    (pfx base : String) (ms : List XMLFileStream) :
    (uploadLoop putObject pfx base ms).1.length = ms.length := by
  rw [uploadLoop_results, List.length_map]

theorem uploadLoop_names_length (putObject : String → PutObjectBehavior)
    (pfx base : String) (ms : List XMLFileStream) :
    (uploadLoop putObject pfx base ms).2.1.length =
      succCount putObject pfx base ms := by
  rw [uploadLoop_names, List.length_map, succCount,
    List.countP_eq_length_filter]

theorem stream_status_eq (putObject : String → PutObjectBehavior)
    (world : World) (zip_filename pfx : String) (tStart tEnd : ℚ) :
    (process_single_file_streaming putObject world zip_filename pfx
        tStart tEnd).status =
      if 0 < worldSuccCount putObject pfx zip_filename world then
        (if worldFailCount putObject pfx zip_filename world = 0 then
          "SUCESSO" else "SUCESSO_PARCIAL")
      else "ERRO" := by
  cases world with
  | error e => rfl
  | ok ms =>
      cases ms with
      | nil => rfl
      | cons x rest =>
          have hx : (extract_xml_files_streaming
              (Except.ok (x :: rest) : World) zip_filename).success = true := by
            simp [extract_xml_files_streaming]
          simp only [process_single_file_streaming, hx, worldSuccCount,
            worldFailCount]
          rw [if_neg (by decide : ¬(true = false))]
          have e1 := uploadLoop_succ_length putObject pfx
            (zipBaseName zip_filename) (x :: rest)
          have e2 := uploadLoop_total_length putObject pfx
            (zipBaseName zip_filename) (x :: rest)
          have hsum := succCount_add_failCount putObject pfx
            (zipBaseName zip_filename) (x :: rest)
          rw [e1, e2]
          by_cases h1 : succCount putObject pfx (zipBaseName zip_filename)
              (x :: rest) = (x :: rest).length ∧
              0 < succCount putObject pfx (zipBaseName zip_filename)
                (x :: rest)
          · rw [if_pos h1, if_pos h1.2, if_pos (by omega)]
          · rw [if_neg h1]
            by_cases h2 : 0 < succCount putObject pfx
                (zipBaseName zip_filename) (x :: rest)
            · rw [if_pos h2, if_pos h2, if_neg (by omega)]
            · rw [if_neg h2, if_neg h2]

theorem stream_zip_filename_eq (putObject : String → PutObjectBehavior)
    (world : World) (zip_filename pfx : String) (tStart tEnd : ℚ) :
    (process_single_file_streaming putObject world zip_filename pfx
        tStart tEnd).zip_filename = zip_filename := by
  cases world with
  | error e => rfl
  | ok ms =>
      cases ms with
      | nil => rfl
      | cons x rest =>
          have hx : (extract_xml_files_streaming
              (Except.ok (x :: rest) : World) zip_filename).success = true := by
            simp [extract_xml_files_streaming]
          simp only [process_single_file_streaming, hx]
          rw [if_neg (by decide : ¬(true = false))]
          split <;> [rfl; skip]
          split <;> rfl

theorem time_stamped (putObject : String → PutObjectBehavior)
    (world : World) (zip_filename pfx : String) (tStart tEnd : ℚ)
    (h : (extract_xml_files_streaming world zip_filename).success = true) :
    (process_single_file_streaming putObject world zip_filename pfx
        tStart tEnd).processing_time_seconds = tEnd - tStart := by
  cases world with
  | error e => simp [extract_xml_files_streaming] at h
  | ok ms =>
      cases ms with
      | nil => simp [extract_xml_files_streaming] at h
      | cons x rest =>
          simp only [process_single_file_streaming, h]
          rw [if_neg (by decide : ¬(true = false))]
          split <;> [rfl; skip]
          split <;> rfl

theorem time_zero_of_precheck_fail (putObject : String → PutObjectBehavior)
    (world : World) (zip_filename pfx : String) (tStart tEnd : ℚ)
    (h : (extract_xml_files_streaming world zip_filename).success = false) :
    (process_single_file_streaming putObject world zip_filename pfx
        tStart tEnd).processing_time_seconds = 0 := by
  cases world with
  | error e => rfl
  | ok ms =>
      cases ms with
      | nil => rfl
      | cons x rest => simp [extract_xml_files_streaming] at h

theorem error_world_eq (putObject : String → PutObjectBehavior)
    (zip_filename pfx : String) (tStart tEnd : ℚ) (msg : String) :
    process_single_file_streaming putObject (.error msg) zip_filename pfx
        tStart tEnd =
      { zip_filename := zip_filename, status := "ERRO",
        xml_files_processed := 0, uploaded_objects := [],
        total_bytes_uploaded := 0, processing_time_seconds := 0,
        error_message := some msg } := rfl

theorem stream_uploaded_objects_eq (putObject : String → PutObjectBehavior)
    (zip_filename pfx : String) (tStart tEnd : ℚ)
    (ms : List XMLFileStream) :
    (process_single_file_streaming putObject (.ok ms) zip_filename pfx
        tStart tEnd).uploaded_objects =
      (ms.filter (memberOk putObject pfx (zipBaseName zip_filename))).map
        (fun x => destObjectName pfx zip_filename x.filename) := by
  cases ms with
  | nil => rfl
  | cons x rest =>
      have hx : (extract_xml_files_streaming
          (Except.ok (x :: rest) : World) zip_filename).success = true := by
        simp [extract_xml_files_streaming]
      simp only [process_single_file_streaming, hx]
      rw [if_neg (by decide : ¬(true = false))]
      have hn := uploadLoop_names putObject pfx
        (zipBaseName zip_filename) (x :: rest)
      split
      · dsimp only; rw [hn]; simp only [destObjectName]
      · split <;> (dsimp only; rw [hn]; simp only [destObjectName])

theorem stream_xml_count_eq (putObject : String → PutObjectBehavior)
    (world : World) (zip_filename pfx : String) (tStart tEnd : ℚ) :
    (process_single_file_streaming putObject world zip_filename pfx
        tStart tEnd).xml_files_processed =
      worldSuccCount putObject pfx zip_filename world := by
  cases world with
  | error e => rfl
  | ok ms =>
      cases ms with
      | nil => rfl
      | cons x rest =>
          have hx : (extract_xml_files_streaming
              (Except.ok (x :: rest) : World) zip_filename).success = true := by
            simp [extract_xml_files_streaming]
          simp only [process_single_file_streaming, hx, worldSuccCount]
          rw [if_neg (by decide : ¬(true = false))]
          have hn := uploadLoop_names_length putObject pfx
            (zipBaseName zip_filename) (x :: rest)
          split
          · dsimp only; rw [hn]
          · split <;> (dsimp only; rw [hn])

theorem stream_uploaded_length_eq (putObject : String → PutObjectBehavior)
    (world : World) (zip_filename pfx : String) (tStart tEnd : ℚ) :
    (process_single_file_streaming putObject world zip_filename pfx
        tStart tEnd).uploaded_objects.length =
      worldSuccCount putObject pfx zip_filename world := by
  cases world with
  | error e => rfl
  | ok ms =>
      rw [stream_uploaded_objects_eq, List.length_map, worldSuccCount, succCount,
        List.countP_eq_length_filter]

theorem process_batch_names (putObject : String → PutObjectBehavior)
    (worldOf : String → World) (timesOf : String → ℚ × ℚ)
    (zip_files : List String) (pfx : String) :
    (process_batch_streaming putObject worldOf timesOf zip_files pfx).map
      (·.zip_filename) = zip_files := by
  unfold process_batch_streaming
  rw [List.map_map]
  have h : ∀ z ∈ zip_files,
      ((fun r : StreamingBatchResult => r.zip_filename) ∘ fun z =>
        process_single_file_streaming putObject (worldOf z) z pfx
          (timesOf z).1 (timesOf z).2) z = id z := fun z _ =>
    stream_zip_filename_eq putObject (worldOf z) z pfx (timesOf z).1 (timesOf z).2
  rw [List.map_congr_left h, List.map_id]

end GuiaNE.StreamingBatchProcessor

namespace GuiaNE.BatchProcessor

open GuiaNE

theorem process_batch_map_names (putObject : String → PutObjectBehavior)
    (worldOf : String → World) (timesOf : String → ℚ × ℚ)
    (zip_files : List String) (pfx : String) (order : List Nat) :
    (process_batch_streaming putObject worldOf timesOf zip_files pfx
        order).map (·.zip_filename) =
      order.filterMap (fun i => zip_files.get? i) := by
  induction order with
  | nil => rfl
  | cons i rest ih =>
      simp only [process_batch_streaming, List.filterMap_cons] at ih ⊢
      cases h : zip_files.get? i with
      | none =>
          simp only [Option.map_none']
          exact ih
      | some z =>
          simp only [Option.map_some', List.map_cons, zip_filename_eq, ih]

theorem filterMap_get_range {α : Type} (l : List α) :
    (List.range l.length).filterMap (fun i => l.get? i) = l := by
  induction l with
  | nil => rfl
  | cons a l ih =>
      rw [List.length_cons, List.range_succ_eq_map, List.filterMap_cons]
      simp only [List.get?_cons_zero, List.filterMap_map]
      have hfun : ((fun i => (a :: l).get? i) ∘ Nat.succ) =
          fun i => l.get? i := funext fun i => rfl
      rw [hfun, ih]

theorem process_batch_names_perm (putObject : String → PutObjectBehavior)
    (worldOf : String → World) (timesOf : String → ℚ × ℚ)
    (zip_files : List String) (pfx : String) (order : List Nat)
    (h : order.Perm (List.range zip_files.length)) :
    ((process_batch_streaming putObject worldOf timesOf zip_files pfx
        order).map (·.zip_filename)).Perm zip_files := by
  rw [process_batch_map_names]
  exact (h.filterMap _).trans
    (by rw [filterMap_get_range zip_files])

end GuiaNE.BatchProcessor

namespace GuiaNE

theorem statusFormula_iff (s f : Nat) :
    (((if 0 < s then (if f = 0 then "SUCESSO" else "SUCESSO_PARCIAL")
        else "ERRO") = "ERRO") ↔ s = 0) ∧
    (((if 0 < s then (if f = 0 then "SUCESSO" else "SUCESSO_PARCIAL")
        else "ERRO") = "SUCESSO_PARCIAL") ↔ 0 < s ∧ 0 < f) ∧
    (((if 0 < s then (if f = 0 then "SUCESSO" else "SUCESSO_PARCIAL")
        else "ERRO") = "SUCESSO") ↔ 0 < s ∧ f = 0) := by
  by_cases h1 : 0 < s
  · by_cases h2 : f = 0
    · rw [if_pos h1, if_pos h2]
      exact ⟨⟨fun hc => absurd hc (by decide), fun hc => absurd hc (by omega)⟩,
        ⟨fun hc => absurd hc (by decide), fun hc => absurd hc.2 (by omega)⟩,
        ⟨fun _ => ⟨h1, h2⟩, fun _ => rfl⟩⟩
    · rw [if_pos h1, if_neg h2]
      exact ⟨⟨fun hc => absurd hc (by decide), fun hc => absurd hc (by omega)⟩,
        ⟨fun _ => ⟨h1, by omega⟩, fun _ => rfl⟩,
        ⟨fun hc => absurd hc (by decide), fun hc => absurd hc.2 h2⟩⟩
  · rw [if_neg h1]
    exact ⟨⟨fun _ => by omega, fun _ => rfl⟩,
      ⟨fun hc => absurd hc (by decide), fun hc => absurd hc.1 h1⟩,
      ⟨fun hc => absurd hc (by decide), fun hc => absurd hc.1 h1⟩⟩

/-- C1: in both pipeline variants, the `FileResult` returned by
`process_single_file_streaming` has status `"ERRO"` (FAILURE) iff zero
member uploads succeeded (including the zero-payload-member archive),
`"SUCESSO_PARCIAL"` iff at least one upload succeeded and at least one
failed, and `"SUCESSO"` iff at least one upload was attempted and all
attempted uploads succeeded (equivalently: some succeeded and none
failed). -/
theorem claim1_processOne_status_iff (putObject : String → PutObjectBehavior)
    (world : World) (zip_filename pfx : String) (tStart tEnd : ℚ) :
    (((BatchProcessor.process_single_file_streaming putObject world
          zip_filename pfx tStart tEnd).status = "ERRO" ↔
        worldSuccCount putObject pfx zip_filename world = 0) ∧
      ((BatchProcessor.process_single_file_streaming putObject world
          zip_filename pfx tStart tEnd).status = "SUCESSO_PARCIAL" ↔
        0 < worldSuccCount putObject pfx zip_filename world ∧
        0 < worldFailCount putObject pfx zip_filename world) ∧
      ((BatchProcessor.process_single_file_streaming putObject world
          zip_filename pfx tStart tEnd).status = "SUCESSO" ↔
        0 < worldSuccCount putObject pfx zip_filename world ∧
        worldFailCount putObject pfx zip_filename world = 0)) ∧
    (((StreamingBatchProcessor.process_single_file_streaming putObject world
          zip_filename pfx tStart tEnd).status = "ERRO" ↔
        worldSuccCount putObject pfx zip_filename world = 0) ∧
      ((StreamingBatchProcessor.process_single_file_streaming putObject world
          zip_filename pfx tStart tEnd).status = "SUCESSO_PARCIAL" ↔
        0 < worldSuccCount putObject pfx zip_filename world ∧
        0 < worldFailCount putObject pfx zip_filename world) ∧
      ((StreamingBatchProcessor.process_single_file_streaming putObject world
          zip_filename pfx tStart tEnd).status = "SUCESSO" ↔
        0 < worldSuccCount putObject pfx zip_filename world ∧
        worldFailCount putObject pfx zip_filename world = 0)) := by
  rw [BatchProcessor.status_eq, StreamingBatchProcessor.stream_status_eq]
  exact ⟨statusFormula_iff _ _, statusFormula_iff _ _⟩

/-- C2: when the streamer raises (archive not found, corrupt archive, or
any other exception before the first member), both variants of
`process_single_file_streaming` return a FAILURE result carrying the
exception's message instead of propagating.  In the embedding both
functions are total, so no exception can escape to the caller on any
input. -/
theorem claim2_processOne_no_propagation
    (putObject : String → PutObjectBehavior)
    (zip_filename pfx msg : String) (tStart tEnd : ℚ) :
    ((BatchProcessor.process_single_file_streaming putObject (.error msg)
        zip_filename pfx tStart tEnd).status = "ERRO" ∧
      (BatchProcessor.process_single_file_streaming putObject (.error msg)
        zip_filename pfx tStart tEnd).error_message = some msg) ∧
    ((StreamingBatchProcessor.process_single_file_streaming putObject
        (.error msg) zip_filename pfx tStart tEnd).status = "ERRO" ∧
      (StreamingBatchProcessor.process_single_file_streaming putObject
        (.error msg) zip_filename pfx tStart tEnd).error_message =
        some msg) :=
  ⟨⟨rfl, rfl⟩, ⟨rfl, rfl⟩⟩

/-- C3 counterexample: the code computes the base name as
`zip_filename.replace(".zip", "")`, which removes every occurrence of
`.zip`, not only the final extension.  For the archive `a.zip.zip` with one
member `m.xml` and a store that accepts every upload, the recorded object
name is `p/a/m.xml`, while the claim's formula (base name with its `.zip`
extension removed) gives `p/a.zip/m.xml`. -/
theorem claim3_counterexample :
    (BatchProcessor.process_single_file_streaming
        (fun _ => PutObjectBehavior.ok)
        (.ok [{ filename := "m.xml", content := [1], size := 1 }])
        "a.zip.zip" "p" 0 0).uploaded_objects = ["p/a/m.xml"] ∧
    destObjectNameSpec "p" "a.zip.zip" "m.xml" = "p/a.zip/m.xml" ∧
    ("p/a/m.xml" : String) ≠ "p/a.zip/m.xml" := by
  refine ⟨rfl, by decide, by decide⟩

/-- C3 (amended): for every uploaded member, the destination object name
recorded by either variant of `process_single_file_streaming` is
`{prefix}/{base}/{memberFileName}`, where `base` is the archive filename
with every occurrence of the substring `.zip` removed (Python's
`replace(".zip", "")`); this coincides with "base name with its `.zip`
extension removed" exactly when `.zip` occurs only as the final
extension. -/
theorem claim3_amended_object_names
    (putObject : String → PutObjectBehavior)
    (zip_filename pfx : String) (tStart tEnd : ℚ)
    (ms : List XMLFileStream) :
    (BatchProcessor.process_single_file_streaming putObject (.ok ms)
        zip_filename pfx tStart tEnd).uploaded_objects =
      (ms.filter (memberOk putObject pfx (zipBaseName zip_filename))).map
        (fun x => destObjectName pfx zip_filename x.filename) ∧
    (StreamingBatchProcessor.process_single_file_streaming putObject (.ok ms)
        zip_filename pfx tStart tEnd).uploaded_objects =
      (ms.filter (memberOk putObject pfx (zipBaseName zip_filename))).map
        (fun x => destObjectName pfx zip_filename x.filename) :=
  ⟨BatchProcessor.uploaded_objects_eq putObject zip_filename pfx
      tStart tEnd ms,
    StreamingBatchProcessor.stream_uploaded_objects_eq putObject zip_filename pfx
      tStart tEnd ms⟩

/-- C4: `upload_from_bytes` always returns an `UploadOutcome` (it is a
total function of its oracle — no failure mode escapes as an exception).
Empty content gives `success = false` with the descriptive message
`"Conteúdo vazio"` and no remote call; a `ServiceError` from the store
gives `success = false` with the error message captured from the failure
(prefixed `"Erro OCI: "`), and any other transport failure gives
`success = false` carrying that failure's message. -/
theorem claim4_upload_outcome (putObject : String → PutObjectBehavior)
    (content : List Nat) (object_name : String) :
    (content = [] →
      (upload_from_bytes putObject content object_name).1.success = false ∧
      (upload_from_bytes putObject content object_name).1.error_message =
        some "Conteúdo vazio" ∧
      (upload_from_bytes putObject content object_name).2 = false) ∧
    (∀ m, content ≠ [] → putObject object_name = .serviceError m →
      (upload_from_bytes putObject content object_name).1.success = false ∧
      (upload_from_bytes putObject content object_name).1.error_message =
        some ("Erro OCI: " ++ m)) ∧
    (∀ m, content ≠ [] → putObject object_name = .otherError m →
      (upload_from_bytes putObject content object_name).1.success = false ∧
      (upload_from_bytes putObject content object_name).1.error_message =
        some m) := by
  refine ⟨fun h => ?_, fun m hc hm => ?_, fun m hc hm => ?_⟩
  · simp [upload_from_bytes, h]
  · simp [upload_from_bytes, hc, hm]
  · simp [upload_from_bytes, hc, hm]

/-- C4 witness: concrete instances of the three clauses. -/
theorem claim4_upload_outcome_witness :
    ((upload_from_bytes (fun _ => PutObjectBehavior.serviceError "boom")
        [] "o").1.success = false ∧
      (upload_from_bytes (fun _ => PutObjectBehavior.serviceError "boom")
        [] "o").1.error_message = some "Conteúdo vazio" ∧
      (upload_from_bytes (fun _ => PutObjectBehavior.serviceError "boom")
        [] "o").2 = false) ∧
    ((upload_from_bytes (fun _ => PutObjectBehavior.serviceError "boom")
        [1] "o").1.success = false ∧
      (upload_from_bytes (fun _ => PutObjectBehavior.serviceError "boom")
        [1] "o").1.error_message = some ("Erro OCI: " ++ "boom")) ∧
    ((upload_from_bytes (fun _ => PutObjectBehavior.otherError "down")
        [1] "o").1.success = false ∧
      (upload_from_bytes (fun _ => PutObjectBehavior.otherError "down")
        [1] "o").1.error_message = some "down") :=
  ⟨(claim4_upload_outcome (fun _ => PutObjectBehavior.serviceError "boom")
      [] "o").1 rfl,
    (claim4_upload_outcome (fun _ => PutObjectBehavior.serviceError "boom")
      [1] "o").2.1 "boom" (by decide) rfl,
    (claim4_upload_outcome (fun _ => PutObjectBehavior.otherError "down")
      [1] "o").2.2 "down" (by decide) rfl⟩

/-- C5: in both variants, every returned result whose status is not
`"ERRO"` satisfies `xml_files_processed = uploaded_objects.length`, and
when every member upload of the archive succeeds both quantities equal the
number of payload members.  (In the code both fields count exactly the
successful uploads, so the first equality in fact holds for every result.)
-/
theorem claim5_xmlCount_invariant (putObject : String → PutObjectBehavior)
    (world : World) (zip_filename pfx : String) (tStart tEnd : ℚ) :
    ((BatchProcessor.process_single_file_streaming putObject world
        zip_filename pfx tStart tEnd).status ≠ "ERRO" →
      (BatchProcessor.process_single_file_streaming putObject world
        zip_filename pfx tStart tEnd).xml_files_processed =
      (BatchProcessor.process_single_file_streaming putObject world
        zip_filename pfx tStart tEnd).uploaded_objects.length) ∧
    ((StreamingBatchProcessor.process_single_file_streaming putObject world
        zip_filename pfx tStart tEnd).status ≠ "ERRO" →
      (StreamingBatchProcessor.process_single_file_streaming putObject world
        zip_filename pfx tStart tEnd).xml_files_processed =
      (StreamingBatchProcessor.process_single_file_streaming putObject world
        zip_filename pfx tStart tEnd).uploaded_objects.length) ∧
    (∀ ms, world = .ok ms →
      (∀ x ∈ ms, memberOk putObject pfx (zipBaseName zip_filename) x =
        true) →
      (BatchProcessor.process_single_file_streaming putObject world
        zip_filename pfx tStart tEnd).xml_files_processed = ms.length ∧
      (BatchProcessor.process_single_file_streaming putObject world
        zip_filename pfx tStart tEnd).uploaded_objects.length = ms.length ∧
      (StreamingBatchProcessor.process_single_file_streaming putObject world
        zip_filename pfx tStart tEnd).xml_files_processed = ms.length ∧
      (StreamingBatchProcessor.process_single_file_streaming putObject world
        zip_filename pfx tStart tEnd).uploaded_objects.length =
        ms.length) := by
  refine ⟨fun _ => ?_, fun _ => ?_, fun ms hms hall => ?_⟩
  · exact (BatchProcessor.xml_count_eq putObject world zip_filename pfx
      tStart tEnd).trans
      (BatchProcessor.uploaded_length_eq putObject world zip_filename pfx
        tStart tEnd).symm
  · exact (StreamingBatchProcessor.stream_xml_count_eq putObject world zip_filename
      pfx tStart tEnd).trans
      (StreamingBatchProcessor.stream_uploaded_length_eq putObject world
        zip_filename pfx tStart tEnd).symm
  · subst hms
    have hcount : worldSuccCount putObject pfx zip_filename (.ok ms) =
        ms.length := List.countP_eq_length.mpr hall
    exact ⟨(BatchProcessor.xml_count_eq putObject _ zip_filename pfx
        tStart tEnd).trans hcount,
      (BatchProcessor.uploaded_length_eq putObject _ zip_filename pfx
        tStart tEnd).trans hcount,
      (StreamingBatchProcessor.stream_xml_count_eq putObject _ zip_filename pfx
        tStart tEnd).trans hcount,
      (StreamingBatchProcessor.stream_uploaded_length_eq putObject _ zip_filename
        pfx tStart tEnd).trans hcount⟩

/-- C5 witness: an archive of two members, both uploads succeeding. -/
theorem claim5_xmlCount_invariant_witness :
    (BatchProcessor.process_single_file_streaming
        (fun _ => PutObjectBehavior.ok)
        (.ok [{ filename := "a.xml", content := [1], size := 1 },
              { filename := "b.xml", content := [2], size := 1 }])
        "a.zip" "p" 0 1).xml_files_processed = 2 ∧
    (StreamingBatchProcessor.process_single_file_streaming
        (fun _ => PutObjectBehavior.ok)
        (.ok [{ filename := "a.xml", content := [1], size := 1 },
              { filename := "b.xml", content := [2], size := 1 }])
        "a.zip" "p" 0 1).uploaded_objects.length = 2 := by
  have h := (claim5_xmlCount_invariant (fun _ => PutObjectBehavior.ok)
    (.ok [{ filename := "a.xml", content := [1], size := 1 },
          { filename := "b.xml", content := [2], size := 1 }])
    "a.zip" "p" 0 1).2.2
    [{ filename := "a.xml", content := [1], size := 1 },
     { filename := "b.xml", content := [2], size := 1 }] rfl
    (by decide)
  exact ⟨h.1, h.2.2.2⟩

/-- C7 counterexample: in the streaming variant, the early return taken
when the pre-check reports no payload members (here: an archive with zero
XML members, entry clock 0, exit clock 5) leaves
`processing_time_seconds` at its initial `0.0` instead of recording the
elapsed time — the claim's "every return path" is false on this path. -/
theorem claim7_counterexample :
    (StreamingBatchProcessor.process_single_file_streaming
        (fun _ => PutObjectBehavior.ok) (.ok []) "b.zip" "p" 0
        5).processing_time_seconds = 0 ∧
    (5 : ℚ) - 0 ≠ 0 :=
  ⟨rfl, by norm_num⟩

/-- C7 (amended): the thread-pooled variant stamps
`processing_time_seconds = exit − entry` on every return path (normal,
partial, failure, zero members, exception).  The streaming variant does so
on every path except the early return taken when the
`extract_xml_files_streaming` pre-check fails (archive missing, corrupt,
or holding zero payload members); on that path the field keeps its initial
`0.0`. -/
theorem claim7_amended_elapsed (putObject : String → PutObjectBehavior)
    (world : World) (zip_filename pfx : String) (tStart tEnd : ℚ) :
    (BatchProcessor.process_single_file_streaming putObject world
      zip_filename pfx tStart tEnd).processing_time_seconds =
      tEnd - tStart ∧
    ((extract_xml_files_streaming world zip_filename).success = true →
      (StreamingBatchProcessor.process_single_file_streaming putObject world
        zip_filename pfx tStart tEnd).processing_time_seconds =
        tEnd - tStart) ∧
    ((extract_xml_files_streaming world zip_filename).success = false →
      (StreamingBatchProcessor.process_single_file_streaming putObject world
        zip_filename pfx tStart tEnd).processing_time_seconds = 0) :=
  ⟨BatchProcessor.time_eq putObject world zip_filename pfx tStart tEnd,
    fun h => StreamingBatchProcessor.time_stamped putObject world
      zip_filename pfx tStart tEnd h,
    fun h => StreamingBatchProcessor.time_zero_of_precheck_fail putObject
      world zip_filename pfx tStart tEnd h⟩

/-- C7 witness: with a one-member archive and clocks 1 and 5, both
variants record elapsed `5 - 1`. -/
theorem claim7_amended_elapsed_witness :
    (BatchProcessor.process_single_file_streaming
        (fun _ => PutObjectBehavior.ok)
        (.ok [{ filename := "m.xml", content := [1], size := 1 }])
        "a.zip" "p" 1 5).processing_time_seconds = 5 - 1 ∧
    (StreamingBatchProcessor.process_single_file_streaming
        (fun _ => PutObjectBehavior.ok)
        (.ok [{ filename := "m.xml", content := [1], size := 1 }])
        "a.zip" "p" 1 5).processing_time_seconds = 5 - 1 :=
  ⟨(claim7_amended_elapsed (fun _ => PutObjectBehavior.ok)
      (.ok [{ filename := "m.xml", content := [1], size := 1 }])
      "a.zip" "p" 1 5).1,
    (claim7_amended_elapsed (fun _ => PutObjectBehavior.ok)
      (.ok [{ filename := "m.xml", content := [1], size := 1 }])
      "a.zip" "p" 1 5).2.1 rfl⟩

/-- C6: for any batch of N archive identifiers, the thread-pooled
`process_batch_streaming` returns exactly N results whose archive names
are a permutation of the submitted batch (one result per submitted
archive, none duplicated, none omitted), for every completion order of
the worker pool — the pool width only influences which completion orders
are possible, and the property holds for all of them.  The sequential
streaming variant returns the results in submission order, so its name
sequence equals the batch exactly.  (The progress callback is a pure
effect and does not influence the result list; a callback that raises is
outside the claim's hypothesis.) -/
theorem claim6_batch_complete (putObject : String → PutObjectBehavior)
    (worldOf : String → World) (timesOf : String → ℚ × ℚ)
    (zip_files : List String) (pfx : String) (order : List Nat)
    (h : order.Perm (List.range zip_files.length)) :
    (BatchProcessor.process_batch_streaming putObject worldOf timesOf
        zip_files pfx order).length = zip_files.length ∧
    ((BatchProcessor.process_batch_streaming putObject worldOf timesOf
        zip_files pfx order).map (·.zip_filename)).Perm zip_files ∧
    (StreamingBatchProcessor.process_batch_streaming putObject worldOf
        timesOf zip_files pfx).map (·.zip_filename) = zip_files := by
  have hp := BatchProcessor.process_batch_names_perm putObject worldOf
    timesOf zip_files pfx order h
  refine ⟨?_, hp, StreamingBatchProcessor.process_batch_names putObject
    worldOf timesOf zip_files pfx⟩
  have hl := hp.length_eq
  rwa [List.length_map] at hl

/-- C6 witness: two archives with completion order reversed from
submission order. -/
theorem claim6_batch_complete_witness :
    (BatchProcessor.process_batch_streaming (fun _ => PutObjectBehavior.ok)
        (fun _ => .ok []) (fun _ => (0, 1)) ["a.zip", "b.zip"] "p"
        [1, 0]).length = 2 ∧
    ((BatchProcessor.process_batch_streaming (fun _ => PutObjectBehavior.ok)
        (fun _ => .ok []) (fun _ => (0, 1)) ["a.zip", "b.zip"] "p"
        [1, 0]).map (·.zip_filename)).Perm ["a.zip", "b.zip"] ∧
    (StreamingBatchProcessor.process_batch_streaming
        (fun _ => PutObjectBehavior.ok) (fun _ => .ok []) (fun _ => (0, 1))
        ["a.zip", "b.zip"] "p").map (·.zip_filename) =
      ["a.zip", "b.zip"] := by
  have h := claim6_batch_complete (fun _ => PutObjectBehavior.ok)
    (fun _ => (.ok [] : World)) (fun _ => ((0 : ℚ), (1 : ℚ)))
    ["a.zip", "b.zip"] "p" [1, 0] (by decide)
  exact ⟨h.1, h.2.1, h.2.2⟩

/-- C8: both summary operations applied to the empty result sequence
return exactly the one-key dictionary `{total_files: 0}` — every other
counter is absent — by an early return taken before any aggregate or rate
is computed, so no division is evaluated on the empty input (the empty
input is the designated response, not an error). -/
theorem claim8_empty_summary :
    BatchProcessor.get_batch_summary [] =
      { total_files := 0, successful := none, failed := none,
        total_xml_files_processed := none,
        total_processing_time_seconds := none,
        average_processing_time_per_file := none,
        success_rate_percent := none } ∧
    StreamingBatchProcessor.get_streaming_batch_summary [] =
      { total_files := 0, successful := none, failed := none,
        total_xml_files_processed := none, total_bytes_uploaded := none,
        total_bytes_uploaded_mb := none,
        total_processing_time_seconds := none,
        average_processing_time_per_file := none,
        success_rate_percent := none, average_bytes_per_file := none } :=
  ⟨rfl, rfl⟩

theorem get_batch_summary_perm (l₁ l₂ : List BatchProcessor.BatchResult)
    (h : l₁.Perm l₂) :
    BatchProcessor.get_batch_summary l₁ =
      BatchProcessor.get_batch_summary l₂ := by
  by_cases h0 : l₁ = []
  · subst h0
    rw [← h.nil_eq]
  · have h2 : l₂ ≠ [] := fun he => h0 (by rw [he] at h; exact h.eq_nil)
    unfold BatchProcessor.get_batch_summary
    rw [if_neg h0, if_neg h2]
    have hlen := h.length_eq
    have hsucc := (h.filter BatchProcessor.isCounted).length_eq
    have hfail := (h.filter (fun r => r.status == "ERRO")).length_eq
    have hxml := (h.map (·.xml_files_processed)).sum_eq
    have htime := (h.map (·.processing_time_seconds)).sum_eq
    simp only [hlen, hsucc, hfail, hxml, htime]

theorem get_streaming_batch_summary_perm
    (l₁ l₂ : List StreamingBatchProcessor.StreamingBatchResult)
    (h : l₁.Perm l₂) :
    StreamingBatchProcessor.get_streaming_batch_summary l₁ =
      StreamingBatchProcessor.get_streaming_batch_summary l₂ := by
  by_cases h0 : l₁ = []
  · subst h0
    rw [← h.nil_eq]
  · have h2 : l₂ ≠ [] := fun he => h0 (by rw [he] at h; exact h.eq_nil)
    unfold StreamingBatchProcessor.get_streaming_batch_summary
    rw [if_neg h0, if_neg h2]
    have hlen := h.length_eq
    have hsucc := (h.filter StreamingBatchProcessor.isCounted).length_eq
    have hfail := (h.filter (fun r => r.status == "ERRO")).length_eq
    have hxml := (h.map (·.xml_files_processed)).sum_eq
    have hbytes := (h.map (·.total_bytes_uploaded)).sum_eq
    have htime := (h.map (·.processing_time_seconds)).sum_eq
    simp only [hlen, hsucc, hfail, hxml, hbytes, htime]

/-- C9 counterexample: `summarize` is not order-independent in the
program's float arithmetic.  The `total_processing_time_seconds`
aggregate is a Python float sum (`batch_processor.py` line 229), and
binary64 addition is not permutation-invariant: for three results whose
elapsed times are the doubles written `0.1`, `0.2`, `0.3`, the sum in
submission order is `5404319552844596 · 2⁻⁵³` (`0.6000000000000001`)
while the reversed order gives `5404319552844595 · 2⁻⁵³` (`0.6`) — two
different values for permuted inputs, so "permuting the input changes no
aggregate value" fails at this input.  (`average_processing_time_per_file`
divides this total by the invariant length, so it differs too.) -/
theorem claim9_counterexample :
    c9forward.Perm c9reversed ∧
    floatSumBatch c9forward = (5404319552844596, -53) ∧
    floatSumBatch c9reversed = (5404319552844595, -53) ∧
    dyVal (floatSumBatch c9forward) ≠ dyVal (floatSumBatch c9reversed) := by
  have h1 : floatSumBatch c9forward = (5404319552844596, -53) := by decide
  have h2 : floatSumBatch c9reversed = (5404319552844595, -53) := by decide
  refine ⟨by decide, h1, h2, ?_⟩
  rw [h1, h2]
  intro hcon
  have hz : ((2 : ℚ) ^ (-53 : ℤ)) ≠ 0 := zpow_ne_zero _ (by norm_num)
  have := mul_right_cancel₀ hz hcon
  norm_num at this

/-- C9 (amended): permuting the input result sequence changes none of the
integer-derived aggregates — `total_files`, `successful`, `failed`,
`total_xml_files_processed`, `success_rate_percent` (a single deterministic
operation on the invariant counts), and for the streaming summary also
`total_bytes_uploaded`, `total_bytes_uploaded_mb` and
`average_bytes_per_file`.  The time aggregates
(`total_processing_time_seconds`, `average_processing_time_per_file`) are
computed by float summation and are **not** order-independent in general
(see the counterexample); they are excluded here. -/
theorem claim9_amended_order_independent :
    (∀ (l₁ l₂ : List BatchProcessor.BatchResult), l₁.Perm l₂ →
      (BatchProcessor.get_batch_summary l₁).total_files =
        (BatchProcessor.get_batch_summary l₂).total_files ∧
      (BatchProcessor.get_batch_summary l₁).successful =
        (BatchProcessor.get_batch_summary l₂).successful ∧
      (BatchProcessor.get_batch_summary l₁).failed =
        (BatchProcessor.get_batch_summary l₂).failed ∧
      (BatchProcessor.get_batch_summary l₁).total_xml_files_processed =
        (BatchProcessor.get_batch_summary l₂).total_xml_files_processed ∧
      (BatchProcessor.get_batch_summary l₁).success_rate_percent =
        (BatchProcessor.get_batch_summary l₂).success_rate_percent) ∧
    (∀ (l₁ l₂ : List StreamingBatchProcessor.StreamingBatchResult),
      l₁.Perm l₂ →
      (StreamingBatchProcessor.get_streaming_batch_summary l₁).total_files =
        (StreamingBatchProcessor.get_streaming_batch_summary
          l₂).total_files ∧
      (StreamingBatchProcessor.get_streaming_batch_summary l₁).successful =
        (StreamingBatchProcessor.get_streaming_batch_summary
          l₂).successful ∧
      (StreamingBatchProcessor.get_streaming_batch_summary l₁).failed =
        (StreamingBatchProcessor.get_streaming_batch_summary l₂).failed ∧
      (StreamingBatchProcessor.get_streaming_batch_summary
          l₁).total_xml_files_processed =
        (StreamingBatchProcessor.get_streaming_batch_summary
          l₂).total_xml_files_processed ∧
      (StreamingBatchProcessor.get_streaming_batch_summary
          l₁).total_bytes_uploaded =
        (StreamingBatchProcessor.get_streaming_batch_summary
          l₂).total_bytes_uploaded ∧
      (StreamingBatchProcessor.get_streaming_batch_summary
          l₁).total_bytes_uploaded_mb =
        (StreamingBatchProcessor.get_streaming_batch_summary
          l₂).total_bytes_uploaded_mb ∧
      (StreamingBatchProcessor.get_streaming_batch_summary
          l₁).success_rate_percent =
        (StreamingBatchProcessor.get_streaming_batch_summary
          l₂).success_rate_percent ∧
      (StreamingBatchProcessor.get_streaming_batch_summary
          l₁).average_bytes_per_file =
        (StreamingBatchProcessor.get_streaming_batch_summary
          l₂).average_bytes_per_file) := by
  constructor
  · intro l₁ l₂ h
    rw [get_batch_summary_perm l₁ l₂ h]
    exact ⟨rfl, rfl, rfl, rfl, rfl⟩
  · intro l₁ l₂ h
    rw [get_streaming_batch_summary_perm l₁ l₂ h]
    exact ⟨rfl, rfl, rfl, rfl, rfl, rfl, rfl, rfl⟩

/-- C9 (amended) witness: a two-element sequence and its transposition. -/
theorem claim9_amended_order_independent_witness :
    (BatchProcessor.get_batch_summary
      [{ zip_filename := "a.zip", status := "SUCESSO",
         xml_files_processed := 1, uploaded_objects := ["x"],
         processing_time_seconds := 2, error_message := none },
       { zip_filename := "b.zip", status := "ERRO",
         xml_files_processed := 0, uploaded_objects := [],
         processing_time_seconds := 3,
         error_message := some "e" }]).successful =
    (BatchProcessor.get_batch_summary
      [{ zip_filename := "b.zip", status := "ERRO",
         xml_files_processed := 0, uploaded_objects := [],
         processing_time_seconds := 3, error_message := some "e" },
       { zip_filename := "a.zip", status := "SUCESSO",
         xml_files_processed := 1, uploaded_objects := ["x"],
         processing_time_seconds := 2,
         error_message := none }]).successful ∧
    (StreamingBatchProcessor.get_streaming_batch_summary
      [{ zip_filename := "a.zip", status := "SUCESSO",
         xml_files_processed := 1, uploaded_objects := ["x"],
         total_bytes_uploaded := 7, processing_time_seconds := 2,
         error_message := none },
       { zip_filename := "b.zip", status := "ERRO",
         xml_files_processed := 0, uploaded_objects := [],
         total_bytes_uploaded := 0, processing_time_seconds := 3,
         error_message := some "e" }]).total_bytes_uploaded =
    (StreamingBatchProcessor.get_streaming_batch_summary
      [{ zip_filename := "b.zip", status := "ERRO",
         xml_files_processed := 0, uploaded_objects := [],
         total_bytes_uploaded := 0, processing_time_seconds := 3,
         error_message := some "e" },
       { zip_filename := "a.zip", status := "SUCESSO",
         xml_files_processed := 1, uploaded_objects := ["x"],
         total_bytes_uploaded := 7, processing_time_seconds := 2,
         error_message := none }]).total_bytes_uploaded :=
  ⟨(claim9_amended_order_independent.1 _ _ (by decide)).2.1,
    (claim9_amended_order_independent.2 _ _ (by decide)).2.2.2.2.1⟩

theorem countP_tri {α : Type} (status : α → String) (l : List α)
    (h : ∀ r ∈ l, status r = "SUCESSO" ∨ status r = "SUCESSO_PARCIAL" ∨
      status r = "ERRO") :
    l.countP (fun r =>
        status r == "SUCESSO" || status r == "SUCESSO_PARCIAL") +
      l.countP (fun r => status r == "ERRO") = l.length := by
  induction l with
  | nil => rfl
  | cons a l ih =>
      have ha := h a (List.mem_cons_self a l)
      have ihl := ih (fun r hr => h r (List.mem_cons_of_mem a hr))
      simp only [List.countP_cons, List.length_cons]
      rcases ha with ha | ha | ha <;> rw [ha] <;> simp <;> omega

/-- C10: for every non-empty result sequence whose statuses are among the
three values the pipeline assigns, the summary counts a result as
successful iff its status is `"SUCESSO"` or `"SUCESSO_PARCIAL"` (so the
success rate treats partial successes as successes), counts it as failed
iff its status is `"ERRO"`, and `successful + failed = total_files`.  The
summary dictionaries carry no separate partial-success counter (see the
summary types: no such field exists). -/
theorem claim10_summary_counts :
    (∀ (results : List BatchProcessor.BatchResult), results ≠ [] →
      (∀ r ∈ results, r.status = "SUCESSO" ∨ r.status = "SUCESSO_PARCIAL" ∨
        r.status = "ERRO") →
      (BatchProcessor.get_batch_summary results).successful =
        some ((results.filter BatchProcessor.isCounted).length) ∧
      (BatchProcessor.get_batch_summary results).failed =
        some ((results.filter (fun r => r.status == "ERRO")).length) ∧
      (results.filter BatchProcessor.isCounted).length +
        (results.filter (fun r => r.status == "ERRO")).length =
        results.length) ∧
    (∀ (results : List StreamingBatchProcessor.StreamingBatchResult),
      results ≠ [] →
      (∀ r ∈ results, r.status = "SUCESSO" ∨ r.status = "SUCESSO_PARCIAL" ∨
        r.status = "ERRO") →
      (StreamingBatchProcessor.get_streaming_batch_summary
          results).successful =
        some ((results.filter StreamingBatchProcessor.isCounted).length) ∧
      (StreamingBatchProcessor.get_streaming_batch_summary results).failed =
        some ((results.filter (fun r => r.status == "ERRO")).length) ∧
      (results.filter StreamingBatchProcessor.isCounted).length +
        (results.filter (fun r => r.status == "ERRO")).length =
        results.length) := by
  constructor
  · intro results h0 hall
    refine ⟨?_, ?_, ?_⟩
    · unfold BatchProcessor.get_batch_summary
      rw [if_neg h0]
    · unfold BatchProcessor.get_batch_summary
      rw [if_neg h0]
    · rw [← List.countP_eq_length_filter, ← List.countP_eq_length_filter]
      exact countP_tri (fun r => r.status) results hall
  · intro results h0 hall
    refine ⟨?_, ?_, ?_⟩
    · unfold StreamingBatchProcessor.get_streaming_batch_summary
      rw [if_neg h0]
    · unfold StreamingBatchProcessor.get_streaming_batch_summary
      rw [if_neg h0]
    · rw [← List.countP_eq_length_filter, ← List.countP_eq_length_filter]
      exact countP_tri (fun r => r.status) results hall

/-- C10 witness: one full success and one failure in each variant. -/
theorem claim10_summary_counts_witness :
    (BatchProcessor.get_batch_summary
      [{ zip_filename := "a.zip", status := "SUCESSO",
         xml_files_processed := 1, uploaded_objects := ["x"],
         processing_time_seconds := 2, error_message := none },
       { zip_filename := "b.zip", status := "ERRO",
         xml_files_processed := 0, uploaded_objects := [],
         processing_time_seconds := 3,
         error_message := some "e" }]).successful = some 1 ∧
    (BatchProcessor.get_batch_summary
      [{ zip_filename := "a.zip", status := "SUCESSO",
         xml_files_processed := 1, uploaded_objects := ["x"],
         processing_time_seconds := 2, error_message := none },
       { zip_filename := "b.zip", status := "ERRO",
         xml_files_processed := 0, uploaded_objects := [],
         processing_time_seconds := 3,
         error_message := some "e" }]).failed = some 1 ∧
    (StreamingBatchProcessor.get_streaming_batch_summary
      [{ zip_filename := "a.zip", status := "SUCESSO_PARCIAL",
         xml_files_processed := 1, uploaded_objects := ["x"],
         total_bytes_uploaded := 7, processing_time_seconds := 2,
         error_message := some "f" },
       { zip_filename := "b.zip", status := "ERRO",
         xml_files_processed := 0, uploaded_objects := [],
         total_bytes_uploaded := 0, processing_time_seconds := 3,
         error_message := some "e" }]).successful = some 1 := by
  have hb := claim10_summary_counts.1
    [{ zip_filename := "a.zip", status := "SUCESSO",
       xml_files_processed := 1, uploaded_objects := ["x"],
       processing_time_seconds := 2, error_message := none },
     { zip_filename := "b.zip", status := "ERRO",
       xml_files_processed := 0, uploaded_objects := [],
       processing_time_seconds := 3, error_message := some "e" }]
    (by decide) (by decide)
  have hs := claim10_summary_counts.2
    [{ zip_filename := "a.zip", status := "SUCESSO_PARCIAL",
       xml_files_processed := 1, uploaded_objects := ["x"],
       total_bytes_uploaded := 7, processing_time_seconds := 2,
       error_message := some "f" },
     { zip_filename := "b.zip", status := "ERRO",
       xml_files_processed := 0, uploaded_objects := [],
       total_bytes_uploaded := 0, processing_time_seconds := 3,
       error_message := some "e" }]
    (by decide) (by decide)
  exact ⟨hb.1, hb.2.1, hs.1⟩

end GuiaNE
